import Mathlib

/-!
Verification of the chart-preparation script `charts_preparation_eng.py`.

The script loads one CSV survey table and renders thirteen-ish bar charts
(one per categorical survey variable), saving each as a JPEG file. We embed:

* the survey table as a list of columns names plus integer rows
  (every column referenced by the script holds small integer codes);
* each renderer as a chart specification (`ChartSpec`): its required column,
  its expected codes, its fixed output filename, and a pure `render` function
  from the column's values to the abstract chart content (`Chart`): the bars
  drawn by plt.bar (position and height), the texts written above bars by
  plt.text, and the title;
* the filesystem as an optional input table plus an association list of
  written output files, where a write of an existing path overwrites it;
* `load_data` and `main` as functions over that filesystem, returning the
  written files and the error-report lines printed by the except handlers.

Cosmetic aspects (colors, tick labels, legends, figure sizes, DPI) and the
matplotlib canvas are not modelled; the overlaid `plt.hist` calls in the
sexident/irsex/drug renderers draw behind the annotated `plt.bar` bars and
are likewise cosmetic.
-/

namespace ChartsPrep

/-- Survey table: column names plus one integer row per respondent, as read
by `pd.read_csv` (all columns used by the script hold integer codes). -/
structure Table where
  cols : List String
  rows : List (List Int)
deriving DecidableEq, Repr

/-- Column access `df[c]`: `none` when the column is absent (pandas raises
`KeyError`), otherwise the column's value in each row. -/
def getColumn (t : Table) (c : String) : Option (List Int) :=
  match t.cols.findIdx? (fun x => x == c) with
  | none => none
  | some i => some (t.rows.map (fun r => r.getD i 0))

/-- Whether the table has column `c`. -/
def hasCol (t : Table) (c : String) : Bool :=
  (getColumn t c).isSome

/-- Embedding of `series.value_counts().sort_index()`: one entry per distinct
value actually present, in ascending value order, with its number of
occurrences. Values with zero occurrences do not appear. -/
def value_counts_sort_index (xs : List Int) : List (Int × Nat) :=
  (xs.dedup.insertionSort (· ≤ ·)).map (fun v => (v, xs.count v))

/-- Abstract content of one rendered chart: the bars drawn by `plt.bar`
(x position, height), the numeric texts placed above bars by `plt.text`
(in bar order), and the chart title. -/
structure Chart where
  bars : List (Int × Nat)
  barTexts : List Nat
  title : String
deriving DecidableEq, Repr

/-- Chart specification of one renderer function of the script: the column it
reads, the codes it expects (per the hard-coded label lists), its fixed
output filename, and the chart content it renders from the column values. -/
structure ChartSpec where
  col : String
  codes : List Int
  filename : String
  render : List Int → Chart

/-- Output directory `PLOT_CONFIG['output_dir']`, as a function of the
script's directory `SCRIPT_DIR`. -/
def output_dir (sd : String) : String :=
  sd ++ "/../../UAB-data-engineering-project/charts/"

/-- Data directory `PLOT_CONFIG['data_dir']`. -/
def data_dir (sd : String) : String :=
  sd ++ "/../../analysis-of-psychoactive-substance-use/data/"

/-- Full path of the input CSV file tried by `load_data`. -/
def data_path (sd : String) : String :=
  data_dir sd ++ "NSDUH_2022_selected_columns_validated.csv"

/-- `configure_output`: full output path for a chart filename. -/
def configure_output (sd : String) (filename : String) : String :=
  output_dir sd ++ filename

/-- Renderer `histograph_age`: `value_counts().sort_index()` on `AGE3`,
no per-bar texts. -/
def histograph_age : ChartSpec where
  col := "AGE3"
  codes := [4, 5, 6, 7, 8, 9, 10, 11]
  filename := "histogram_age3_eng.jpg"
  render := fun xs =>
    { bars := value_counts_sort_index xs
      barTexts := []
      title := "Distribution of Participants by Age Group (AGE3)" }

/-- Renderer `histograph_coutyp4`: filters rows per code 1..3, bars at
positions 0..2, each bar annotated with its height. -/
def histograph_coutyp4 : ChartSpec where
  col := "COUTYP4"
  codes := [1, 2, 3]
  filename := "histogram_coutyp4_eng.jpg"
  render := fun xs =>
    { bars := [(0, xs.count 1), (1, xs.count 2), (2, xs.count 3)]
      barTexts := [xs.count 1, xs.count 2, xs.count 3]
      title := "Distribution of Participants by Residence Type (COUTYP4)" }

/-- Renderer `histograph_sexident`: filters rows per code 1..3, bars at
positions 1..3, each bar annotated with its height. -/
def histograph_sexident : ChartSpec where
  col := "SEXIDENT"
  codes := [1, 2, 3]
  filename := "histogram_sexident_eng.jpg"
  render := fun xs =>
    { bars := [(1, xs.count 1), (2, xs.count 2), (3, xs.count 3)]
      barTexts := [xs.count 1, xs.count 2, xs.count 3]
      title := "Distribution of Participants by Sexual Orientation (SEXIDENT)" }

/-- Renderer `histograph_irsex`: filters rows per code 1..2, bars at
positions 1..2, each bar annotated with its height. -/
def histograph_irsex : ChartSpec where
  col := "IRSEX"
  codes := [1, 2]
  filename := "histogram_irsex_eng.jpg"
  render := fun xs =>
    { bars := [(1, xs.count 1), (2, xs.count 2)]
      barTexts := [xs.count 1, xs.count 2]
      title := "Distribution of participants by gender (IRSEX)" }

/-- Renderer `histograph_newrace2`: `value_counts().sort_index()` on
`NEWRACE2`, no per-bar texts. -/
def histograph_newrace2 : ChartSpec where
  col := "NEWRACE2"
  codes := [1, 2, 3, 4, 5, 6, 7]
  filename := "histogram_newrace2_eng.jpg"
  render := fun xs =>
    { bars := value_counts_sort_index xs
      barTexts := []
      title := "Distribution of participants by ethnic origin (NEWRACE2)" }

/-- Renderer `histograph_income`: `value_counts().sort_index()` on `INCOME`,
no per-bar texts. -/
def histograph_income : ChartSpec where
  col := "INCOME"
  codes := [1, 2, 3, 4]
  filename := "histograph_income_eng.jpg"
  render := fun xs =>
    { bars := value_counts_sort_index xs
      barTexts := []
      title := "Distribution of Participants by Income Group (INCOME)" }

/-- Parametric renderer `histograph_drug`: rows with flag value 1 ("taken")
and 2 ("not taken"), bars at positions 1..2, each bar annotated with its
height. Rows with any other flag value are in neither group. -/
def histograph_drug (col : String) (name : String) (vals : List Int) : ChartSpec where
  col := col
  codes := vals
  filename := "histographs_drug_" ++ name ++ "_eng.jpg"
  render := fun xs =>
    { bars := [(1, xs.count 1), (2, xs.count 2)]
      barTexts := [xs.count 1, xs.count 2]
      title := "Distribution of participants by " ++ name ++ " usage (" ++ col ++ ")" }

/-- The `drug_config` list of `main`: column, display name, expected values,
display labels (the labels feed only tick labels, which are cosmetic). -/
def drug_config : List (String × String × List Int × List String) :=
  [("CIGFLAG", "Cigarettes", [1, 2], ["Used", "Never used"]),
   ("ALCFLAG", "Alcohol", [1, 2], ["Used", "Never used"]),
   ("MJEVER", "Marijuana", [1, 2], ["Used", "Never used"]),
   ("COCEVER", "Cocaine", [1, 2], ["Used", "Never used"]),
   ("HEREVER", "Heroin", [1, 2], ["Used", "Never used"]),
   ("LSD", "LSD", [1, 2], ["Used", "Never used"])]

/-- The fixed sequence of renderers invoked by `main`: the six demographic
renderers in call order, then one drug renderer per `drug_config` entry. -/
def chartSpecs : List ChartSpec :=
  [histograph_age, histograph_coutyp4, histograph_sexident,
   histograph_irsex, histograph_newrace2, histograph_income] ++
    drug_config.map (fun q => histograph_drug q.1 q.2.1 q.2.2.1)

/-- Columns required by the six demographic renderers, in call order. -/
def demo_columns : List String :=
  ["AGE3", "COUTYP4", "SEXIDENT", "IRSEX", "NEWRACE2", "INCOME"]

/-- Failure classes of the script: `FileNotFoundError` raised by `load_data`
(carrying the attempted path) and `KeyError` from a missing column
(carrying the column name). The two are distinct constructors, so the
orchestrator can distinguish them. -/
inductive Err where
  | fileNotFound (path : String)
  | missingColumn (col : String)
deriving DecidableEq, Repr

/-- Filesystem model: the content of the configured input file (`none` when
the file is absent) and the written output files, keyed by full path. -/
structure FS where
  input : Option Table
  outputs : List (String × Chart)
deriving DecidableEq, Repr

/-- `load_data`: raises `FileNotFoundError` carrying the attempted path when
the configured input file is absent, otherwise returns the loaded table. -/
def load_data (sd : String) (fs : FS) : Except Err Table :=
  match fs.input with
  | none => .error (.fileNotFound (data_path sd))
  | some t => .ok t

/-- Overwriting file write: replaces any existing entry for the same path. -/
def fsWrite (outs : List (String × Chart)) (k : String) (v : Chart) :
    List (String × Chart) :=
  outs.filter (fun p => !(p.1 == k)) ++ [(k, v)]

/-- Apply a list of file writes in order. -/
def fsWriteAll (outs : List (String × Chart)) (ws : List (String × Chart)) :
    List (String × Chart) :=
  ws.foldl (fun o w => fsWrite o w.1 w.2) outs

/-- State threaded through the renderer sequence: the loaded table and the
files saved so far (filename, chart content), in save order. -/
structure RunState where
  table : Table
  writes : List (String × Chart)
deriving DecidableEq, Repr

/-- One renderer invocation: raises `KeyError` when its column is absent,
otherwise renders the chart from the column values and saves it under the
renderer's filename. The table itself is only read. -/
def rendererStep (spec : ChartSpec) (s : RunState) : Except Err RunState :=
  match getColumn s.table spec.col with
  | none => .error (.missingColumn spec.col)
  | some xs =>
      .ok { table := s.table
            writes := s.writes ++ [(spec.filename, spec.render xs)] }

/-- Run the renderer sequence, stopping at the first failure; returns the
state reached and the error, if any (matching the script, where an exception
in one renderer aborts all later renderers). -/
def runRenderers : List ChartSpec → RunState → RunState × Option Err
  | [], s => (s, none)
  | spec :: rest, s =>
    match rendererStep spec s with
    | .error e => (s, some e)
    | .ok s' => runRenderers rest s'

/-- The file write performed by a renderer whose column is present. -/
def specWrite (t : Table) (s : ChartSpec) : String × Chart :=
  (s.filename, s.render ((getColumn t s.col).getD []))

/-- Result of one `main` run: the filesystem afterwards, the error-report
lines printed by the two except handlers (empty on success), and the full
paths saved during the run, in save order. -/
structure MainResult where
  fs : FS
  report : List String
  saved : List String
deriving DecidableEq, Repr

/-- Report lines printed by `main`'s two except handlers: the
`FileNotFoundError` handler prints the message plus diagnostic context
(data directory, current working directory `cwd`, script directory `sd`);
the generic handler prints the exception message only (for a `KeyError`,
the quoted column name). -/
def report_for (sd cwd : String) : Err → List String
  | .fileNotFound p =>
      ["✗ Error: Data file not found at: " ++ p,
       "Please verify:",
       "1. The file exists at " ++ data_dir sd,
       "2. The script is running from the correct directory",
       "Current working directory: " ++ cwd,
       "Script directory: " ++ sd]
  | .missingColumn c => ["✗ Unexpected error: '" ++ c ++ "'"]

/-- The orchestrator `main`: load the table, run the renderer sequence,
write each saved chart to its configured output path (overwriting), and on
any failure report it and halt. Files saved before a failure remain. -/
def main (sd cwd : String) (fs : FS) : MainResult :=
  match load_data sd fs with
  | .error e => { fs := fs, report := report_for sd cwd e, saved := [] }
  | .ok t =>
    let res := runRenderers chartSpecs { table := t, writes := [] }
    let pathWrites := res.1.writes.map (fun w => (configure_output sd w.1, w.2))
    { fs := { input := fs.input, outputs := fsWriteAll fs.outputs pathWrites }
      report := match res.2 with
                | none => []
                | some e => report_for sd cwd e
      saved := pathWrites.map (fun w => w.1) }

/-- Whether every renderer's column is present in the table. -/
def has_all_columns (t : Table) : Bool :=
  chartSpecs.all (fun s => hasCol t s.col)

/-- Whether the table contains every expected column with at least one row
per expected code. -/
def has_expected_codes (t : Table) : Bool :=
  chartSpecs.all (fun s =>
    match getColumn t s.col with
    | none => false
    | some xs => s.codes.all (fun v => xs.contains v))

/-- Example table containing every expected column with at least one row per
expected code (eight rows, twelve columns). -/
def exampleTable : Table where
  cols := ["AGE3", "COUTYP4", "SEXIDENT", "IRSEX", "NEWRACE2", "INCOME",
           "CIGFLAG", "ALCFLAG", "MJEVER", "COCEVER", "HEREVER", "LSD"]
  rows := [[4, 1, 1, 1, 1, 1, 1, 1, 1, 1, 1, 1],
           [5, 2, 2, 2, 2, 2, 2, 2, 2, 2, 2, 2],
           [6, 3, 3, 1, 3, 3, 1, 1, 1, 1, 1, 1],
           [7, 1, 1, 2, 4, 4, 2, 2, 2, 2, 2, 2],
           [8, 2, 2, 1, 5, 1, 1, 1, 1, 1, 1, 1],
           [9, 3, 3, 2, 6, 2, 2, 2, 2, 2, 2, 2],
           [10, 1, 1, 1, 7, 3, 1, 1, 1, 1, 1, 1],
           [11, 2, 2, 2, 1, 4, 2, 2, 2, 2, 2, 2]]

/-- Three-row table for the drug renderer: flag values 1, 2 and 3 (the
value 3 belongs to neither the "used" nor the "never used" group). -/
def drugTable : Table where
  cols := ["CIGFLAG"]
  rows := [[1], [2], [3]]

/-- Table whose NEWRACE2 column has one row per code 1..6 and no row with
code 7. -/
def raceTable : Table where
  cols := ["NEWRACE2"]
  rows := [[1], [2], [3], [4], [5], [6]]

/-- Table whose AGE3 column has one row per code 4..11 plus one row with the
out-of-range code 3. -/
def ageBadTable : Table where
  cols := ["AGE3"]
  rows := [[3], [4], [5], [6], [7], [8], [9], [10], [11]]

/-- Table whose AGE3 column has exactly one row per code 4..11. -/
def ageGoodTable : Table where
  cols := ["AGE3"]
  rows := [[4], [5], [6], [7], [8], [9], [10], [11]]

/-- Table with the first two demographic columns only: the SEXIDENT renderer
(third in the fixed sequence) is the first to fail on it. -/
def partTable : Table where
  cols := ["AGE3", "COUTYP4"]
  rows := [[4, 1]]

/-! Helper lemmas. -/

theorem getColumn_isSome_of_hasCol {t : Table} {c : String} (h : hasCol t c = true) :
    ∃ xs, getColumn t c = some xs := by
  unfold hasCol at h
  exact Option.isSome_iff_exists.mp h

theorem getColumn_none_of_hasCol_false {t : Table} {c : String} (h : hasCol t c = false) :
    getColumn t c = none := by
  unfold hasCol at h
  cases hx : getColumn t c with
  | none => rfl
  | some xs => rw [hx] at h; simp at h

theorem runRenderers_ok (specs : List ChartSpec) (t : Table) (ws : List (String × Chart))
    (h : ∀ s ∈ specs, hasCol t s.col = true) :
    runRenderers specs { table := t, writes := ws } =
      ({ table := t, writes := ws ++ specs.map (specWrite t) }, none) := by
  induction specs generalizing ws with
  | nil => simp [runRenderers]
  | cons spec rest ih =>
    obtain ⟨xs, hxs⟩ := getColumn_isSome_of_hasCol (h spec (by simp))
    have hrest : ∀ s ∈ rest, hasCol t s.col = true := fun s hs => h s (by simp [hs])
    have hstep : runRenderers (spec :: rest) { table := t, writes := ws } =
        runRenderers rest
          { table := t, writes := ws ++ [(spec.filename, spec.render xs)] } := by
      simp [runRenderers, rendererStep, hxs]
    rw [hstep, ih _ hrest]
    simp [specWrite, hxs]

theorem runRenderers_firstFail (pre : List ChartSpec) (s0 : ChartSpec)
    (post : List ChartSpec) (t : Table) (ws : List (String × Chart))
    (hpre : ∀ s ∈ pre, hasCol t s.col = true) (h0 : hasCol t s0.col = false) :
    runRenderers (pre ++ s0 :: post) { table := t, writes := ws } =
      ({ table := t, writes := ws ++ pre.map (specWrite t) },
        some (.missingColumn s0.col)) := by
  induction pre generalizing ws with
  | nil =>
    have hnone := getColumn_none_of_hasCol_false h0
    simp [runRenderers, rendererStep, hnone]
  | cons spec rest ih =>
    obtain ⟨xs, hxs⟩ := getColumn_isSome_of_hasCol (hpre spec (by simp))
    have hrest : ∀ s ∈ rest, hasCol t s.col = true := fun s hs => hpre s (by simp [hs])
    have hstep : runRenderers ((spec :: rest) ++ s0 :: post)
          { table := t, writes := ws } =
        runRenderers (rest ++ s0 :: post)
          { table := t, writes := ws ++ [(spec.filename, spec.render xs)] } := by
      simp [runRenderers, rendererStep, hxs]
    rw [hstep, ih _ hrest]
    simp [specWrite, hxs]

theorem exists_first_fail {α : Type} (p : α → Bool) (l : List α)
    (h : ∃ x ∈ l, p x = false) :
    ∃ pre x post, l = pre ++ x :: post ∧ (∀ y ∈ pre, p y = true) ∧ p x = false := by
  induction l with
  | nil => simp at h
  | cons a rest ih =>
    cases ha : p a with
    | false => exact ⟨[], a, rest, by simp, by simp, ha⟩
    | true =>
      have hrest : ∃ x ∈ rest, p x = false := by
        obtain ⟨x, hx, hpx⟩ := h
        rcases List.mem_cons.mp hx with rfl | hx'
        · rw [ha] at hpx; simp at hpx
        · exact ⟨x, hx', hpx⟩
      obtain ⟨pre, x, post, hsplit, hpre, hpx⟩ := ih hrest
      exact ⟨a :: pre, x, post, by simp [hsplit], by
        intro y hy
        rcases List.mem_cons.mp hy with rfl | hy'
        · exact ha
        · exact hpre y hy', hpx⟩

theorem string_append_cancel {a b c : String} (h : a ++ b = a ++ c) : b = c := by
  have hd := congrArg String.data h
  simp [String.data_append] at hd
  cases b; cases c; simp_all

theorem configure_output_injective (sd : String) :
    Function.Injective (configure_output sd) := by
  intro f g h
  exact string_append_cancel h

theorem filenames_nodup : (chartSpecs.map (fun s => s.filename)).Nodup := by decide

theorem insertionSort_dedup_eq (xs l : List Int) (hnd : l.Nodup)
    (hs : List.Sorted (· ≤ ·) l) (hm : ∀ v, v ∈ xs ↔ v ∈ l) :
    xs.dedup.insertionSort (· ≤ ·) = l := by
  have hperm1 : List.Perm (xs.dedup.insertionSort (· ≤ ·)) xs.dedup :=
    List.perm_insertionSort _ _
  have hnd1 : (xs.dedup.insertionSort (· ≤ ·)).Nodup :=
    hperm1.nodup_iff.mpr (List.nodup_dedup xs)
  have hmem : ∀ v, v ∈ xs.dedup.insertionSort (· ≤ ·) ↔ v ∈ l := fun v => by
    rw [hperm1.mem_iff, List.mem_dedup]; exact hm v
  have hperm : List.Perm (xs.dedup.insertionSort (· ≤ ·)) l :=
    List.perm_of_nodup_nodup_toFinset_eq hnd1 hnd (List.toFinset.ext hmem)
  exact List.eq_of_perm_of_sorted hperm (List.sorted_insertionSort _ _) hs

theorem count_one_two_eq_filter_length (xs : List Int) :
    xs.count 1 + xs.count 2 = (xs.filter (fun v => v == 1 || v == 2)).length := by
  induction xs with
  | nil => rfl
  | cons a rest ih =>
    by_cases h1 : a = 1
    · subst h1
      simp [List.count_cons, List.filter_cons]
      omega
    · by_cases h2 : a = 2
      · subst h2
        simp [List.count_cons, List.filter_cons]
        omega
      · simp [List.count_cons, List.filter_cons, h1, h2]
        exact ih

theorem fsWriteAll_eq (m : List (String × Chart)) (ws : List (String × Chart))
    (hk : (ws.map (fun p => p.1)).Nodup) :
    fsWriteAll m ws =
      m.filter (fun p => !((ws.map (fun q => q.1)).contains p.1)) ++ ws := by
  induction ws generalizing m with
  | nil => simp [fsWriteAll]
  | cons w rest ih =>
    have hk' : (w.1 :: rest.map (fun p => p.1)).Nodup := by simpa using hk
    have hknotin : w.1 ∉ rest.map (fun p => p.1) := (List.nodup_cons.mp hk').1
    have hkrest : (rest.map (fun p => p.1)).Nodup := (List.nodup_cons.mp hk').2
    have step : fsWriteAll m (w :: rest) = fsWriteAll (fsWrite m w.1 w.2) rest := rfl
    rw [step, ih _ hkrest]
    simp only [fsWrite, List.filter_append, List.filter_filter]
    have hwkeep : (rest.map (fun q => q.1)).contains w.1 = false := by
      cases hc : (rest.map (fun q => q.1)).contains w.1 with
      | false => rfl
      | true => exact absurd (by simpa using hc) hknotin
    have hfilter : ∀ p : String × Chart,
        (!((rest.map (fun q => q.1)).contains p.1) && !(p.1 == w.1)) =
          !(((w :: rest).map (fun q => q.1)).contains p.1) := by
      intro p
      simp only [List.map_cons, List.contains_cons]
      cases hpe : p.1 == w.1 <;>
        cases hpc : (rest.map (fun q => q.1)).contains p.1 <;> simp [hpe, hpc]
    rw [List.filter_congr (fun p _ => hfilter p)]
    simp [hwkeep, hknotin]

theorem fsWriteAll_nil (ws : List (String × Chart))
    (hk : (ws.map (fun p => p.1)).Nodup) : fsWriteAll [] ws = ws := by
  rw [fsWriteAll_eq [] ws hk]; rfl

theorem fsWriteAll_self (ws : List (String × Chart))
    (hk : (ws.map (fun p => p.1)).Nodup) : fsWriteAll ws ws = ws := by
  rw [fsWriteAll_eq ws ws hk]
  have : ws.filter (fun p => !((ws.map (fun q => q.1)).contains p.1)) = [] := by
    apply List.filter_eq_nil_iff.mpr
    intro p hp
    have : p.1 ∈ ws.map (fun q => q.1) := List.mem_map.mpr ⟨p, hp, rfl⟩
    simp [this]
  rw [this]
  rfl

theorem saved_paths_nodup (sd : String) :
    (chartSpecs.map (fun s => configure_output sd s.filename)).Nodup := by
  have h := List.Nodup.map (configure_output_injective sd) filenames_nodup
  rwa [List.map_map] at h

theorem hasCol_of_has_all_columns {t : Table} (h : has_all_columns t = true) :
    ∀ s ∈ chartSpecs, hasCol t s.col = true := by
  intro s hs
  exact List.all_eq_true.mp h s hs

theorem hasCol_of_expected_codes {t : Table} (h : has_expected_codes t = true) :
    ∀ s ∈ chartSpecs, hasCol t s.col = true := by
  intro s hs
  have hx := List.all_eq_true.mp h s hs
  unfold hasCol
  cases hcol : getColumn t s.col with
  | none => rw [hcol] at hx; simp at hx
  | some xs => rfl

theorem main_ok_eq (sd cwd : String) (t : Table) (outs : List (String × Chart))
    (h : ∀ s ∈ chartSpecs, hasCol t s.col = true) :
    main sd cwd { input := some t, outputs := outs } =
      { fs := { input := some t,
                outputs := fsWriteAll outs (chartSpecs.map (fun s =>
                  (configure_output sd s.filename,
                   s.render ((getColumn t s.col).getD [])))) }
        report := []
        saved := chartSpecs.map (fun s => configure_output sd s.filename) } := by
  have hrun := runRenderers_ok chartSpecs t [] h
  simp only [main, load_data, hrun]
  simp [specWrite, List.map_map, Function.comp]
  rfl

theorem main_fail_eq (sd cwd : String) (t : Table) (outs : List (String × Chart))
    (pre : List ChartSpec) (s0 : ChartSpec) (post : List ChartSpec)
    (hsplit : chartSpecs = pre ++ s0 :: post)
    (hpre : ∀ s ∈ pre, hasCol t s.col = true) (h0 : hasCol t s0.col = false) :
    main sd cwd { input := some t, outputs := outs } =
      { fs := { input := some t,
                outputs := fsWriteAll outs (pre.map (fun s =>
                  (configure_output sd s.filename,
                   s.render ((getColumn t s.col).getD [])))) }
        report := ["✗ Unexpected error: '" ++ s0.col ++ "'"]
        saved := pre.map (fun s => configure_output sd s.filename) } := by
  have hrun := runRenderers_firstFail pre s0 post t [] hpre h0
  rw [← hsplit] at hrun
  simp only [main, load_data, hrun]
  simp [specWrite, List.map_map, Function.comp, report_for]
  rfl

/-! Claim theorems. -/

/-- C1 counterexample: on a table containing every expected column with at
least one row per expected code, the default run of `main` writes twelve
output images, not thirteen as the claim states. -/
theorem main_default_run_writes_twelve_not_thirteen :
    has_expected_codes exampleTable = true ∧
    (main "S" "C" { input := some exampleTable, outputs := [] }).saved.length = 12 ∧
    (main "S" "C" { input := some exampleTable, outputs := [] }).saved.length ≠ 13 := by
  decide

/-- C1 (amended): for every table containing each expected column with at
least one row per expected code, running `main` produces exactly one output
image per configured chart — twelve in total with the default configuration
— all written under the configured output directory, with no report lines. -/
theorem main_writes_one_image_per_chart (sd cwd : String) (t : Table)
    (outs : List (String × Chart)) (h : has_expected_codes t = true) :
    (main sd cwd { input := some t, outputs := outs }).report = [] ∧
    (main sd cwd { input := some t, outputs := outs }).saved =
      chartSpecs.map (fun s => configure_output sd s.filename) ∧
    (main sd cwd { input := some t, outputs := outs }).saved.length = 12 ∧
    (main sd cwd { input := some t, outputs := outs }).saved.Nodup ∧
    ∀ p ∈ (main sd cwd { input := some t, outputs := outs }).saved,
      ∃ f, p = output_dir sd ++ f := by
  have hcols := hasCol_of_expected_codes h
  rw [main_ok_eq sd cwd t outs hcols]
  refine ⟨rfl, rfl, ?_, saved_paths_nodup sd, ?_⟩
  · show (chartSpecs.map (fun s => configure_output sd s.filename)).length = 12
    rw [List.length_map]
    decide
  intro p hp
  obtain ⟨s, _, rfl⟩ := List.mem_map.mp hp
  exact ⟨s.filename, rfl⟩

/-- C1 witness: the amended theorem applied to the concrete full-coverage
table. -/
theorem main_writes_one_image_per_chart_witness :
    has_expected_codes exampleTable = true ∧
    ((main "S" "C" { input := some exampleTable, outputs := [] }).report = [] ∧
     (main "S" "C" { input := some exampleTable, outputs := [] }).saved =
       chartSpecs.map (fun s => configure_output "S" s.filename) ∧
     (main "S" "C" { input := some exampleTable, outputs := [] }).saved.length = 12 ∧
     (main "S" "C" { input := some exampleTable, outputs := [] }).saved.Nodup ∧
     ∀ p ∈ (main "S" "C" { input := some exampleTable, outputs := [] }).saved,
       ∃ f, p = output_dir "S" ++ f) :=
  ⟨by decide, main_writes_one_image_per_chart "S" "C" exampleTable [] (by decide)⟩

/-- C2 (code bug): on a table whose NEWRACE2 column has one row per code 1..6
and none with code 7, `histograph_newrace2` renders six bars — one per code
actually present — and no bar at position 7 at all, because
`value_counts().sort_index()` drops absent codes instead of reindexing onto
the full expected code list; the spec requires a zero-height seventh bar. -/
theorem newrace2_omits_zero_count_code :
    getColumn raceTable "NEWRACE2" = some [1, 2, 3, 4, 5, 6] ∧
    (histograph_newrace2.render [1, 2, 3, 4, 5, 6]).bars =
      [(1, 1), (2, 1), (3, 1), (4, 1), (5, 1), (6, 1)] ∧
    (∀ b ∈ (histograph_newrace2.render [1, 2, 3, 4, 5, 6]).bars, b.1 ≠ 7) ∧
    (histograph_newrace2.render [1, 2, 3, 4, 5, 6]).bars.length ≠
      histograph_newrace2.codes.length := by
  decide

/-- C3 counterexample: the age renderer draws a bar but places no numeric
text above any bar, so the annotate-each-bar contract is not uniform. -/
theorem age_bars_lack_count_texts :
    (histograph_age.render [4]).bars = [(4, 1)] ∧
    (histograph_age.render [4]).barTexts = [] := by
  decide

/-- C3 (amended): the residence-type, sexual-orientation, sex and drug
renderers annotate each rendered bar with its numeric count (one text per
bar, equal to the bar's height, in bar order); the age, race and income
renderers place no text above their bars. -/
theorem bar_count_text_contract (xs : List Int) (col name : String)
    (vals : List Int) :
    (histograph_coutyp4.render xs).barTexts =
      (histograph_coutyp4.render xs).bars.map (fun b => b.2) ∧
    (histograph_sexident.render xs).barTexts =
      (histograph_sexident.render xs).bars.map (fun b => b.2) ∧
    (histograph_irsex.render xs).barTexts =
      (histograph_irsex.render xs).bars.map (fun b => b.2) ∧
    ((histograph_drug col name vals).render xs).barTexts =
      ((histograph_drug col name vals).render xs).bars.map (fun b => b.2) ∧
    (histograph_age.render xs).barTexts = [] ∧
    (histograph_newrace2.render xs).barTexts = [] ∧
    (histograph_income.render xs).barTexts = [] :=
  ⟨rfl, rfl, rfl, rfl, rfl, rfl, rfl⟩

/-- C4: `load_data` fails with the `fileNotFound` condition, carrying the
attempted path, exactly when the configured input file is absent; when the
file exists it returns the loaded table; and the `fileNotFound` condition is
distinct from the other failure class. -/
theorem load_data_not_found_iff (sd : String) (fs : FS) :
    (fs.input = none →
      load_data sd fs = .error (.fileNotFound (data_path sd))) ∧
    (∀ t, fs.input = some t → load_data sd fs = .ok t) ∧
    (∀ p, load_data sd fs = .error (.fileNotFound p) →
      fs.input = none ∧ p = data_path sd) ∧
    (∀ p c, Err.fileNotFound p ≠ Err.missingColumn c) := by
  refine ⟨?_, ?_, ?_, ?_⟩
  · intro h; simp [load_data, h]
  · intro t h; simp [load_data, h]
  · intro p h
    cases hin : fs.input with
    | none =>
      refine ⟨rfl, ?_⟩
      simp [load_data, hin] at h
      exact h.symm
    | some t => simp [load_data, hin] at h
  · intro p c hpc
    cases hpc

/-- C4 witness: `load_data` at a present and at an absent input file. -/
theorem load_data_not_found_iff_witness :
    load_data "S" { input := some exampleTable, outputs := [] } =
      .ok exampleTable ∧
    load_data "S" { input := none, outputs := [] } =
      .error (.fileNotFound (data_path "S")) :=
  ⟨(load_data_not_found_iff "S" { input := some exampleTable, outputs := [] }).2.1
      exampleTable rfl,
   (load_data_not_found_iff "S" { input := none, outputs := [] }).1 rfl⟩

/-- C5: when the configured input file does not exist, `main` reports exactly
the input-missing message shape — the attempted path plus diagnostic context
(data directory, current working directory, script directory) — and
terminates having saved zero output images, leaving the filesystem
unchanged. -/
theorem main_missing_input_reports_and_writes_nothing (sd cwd : String)
    (outs : List (String × Chart)) :
    main sd cwd { input := none, outputs := outs } =
      { fs := { input := none, outputs := outs }
        report := ["✗ Error: Data file not found at: " ++ data_path sd,
                   "Please verify:",
                   "1. The file exists at " ++ data_dir sd,
                   "2. The script is running from the correct directory",
                   "Current working directory: " ++ cwd,
                   "Script directory: " ++ sd]
        saved := [] } := rfl

theorem rendererStep_table_eq {spec : ChartSpec} {s s' : RunState}
    (h : rendererStep spec s = .ok s') : s'.table = s.table := by
  unfold rendererStep at h
  cases hx : getColumn s.table spec.col with
  | none => rw [hx] at h; simp at h
  | some xs =>
    rw [hx] at h
    injection h with h2
    rw [← h2]

theorem runRenderers_table_eq (specs : List ChartSpec) (s : RunState) :
    (runRenderers specs s).1.table = s.table := by
  induction specs generalizing s with
  | nil => rfl
  | cons spec rest ih =>
    cases hstep : rendererStep spec s with
    | error e => simp [runRenderers, hstep]
    | ok s' =>
      have ht := rendererStep_table_eq hstep
      simp [runRenderers, hstep, ih s', ht]

theorem main_input_eq (sd cwd : String) (fs : FS) :
    (main sd cwd fs).fs.input = fs.input := by
  cases hin : fs.input with
  | none => simp [main, load_data, hin]
  | some t => simp [main, load_data, hin]

theorem main_ok_report (sd cwd : String) (t : Table) (outs : List (String × Chart))
    (h : ∀ s ∈ chartSpecs, hasCol t s.col = true) :
    (main sd cwd { input := some t, outputs := outs }).report = [] := by
  rw [main_ok_eq sd cwd t outs h]

theorem main_ok_saved (sd cwd : String) (t : Table) (outs : List (String × Chart))
    (h : ∀ s ∈ chartSpecs, hasCol t s.col = true) :
    (main sd cwd { input := some t, outputs := outs }).saved =
      chartSpecs.map (fun s => configure_output sd s.filename) := by
  rw [main_ok_eq sd cwd t outs h]

theorem main_ok_fs (sd cwd : String) (t : Table) (outs : List (String × Chart))
    (h : ∀ s ∈ chartSpecs, hasCol t s.col = true) :
    (main sd cwd { input := some t, outputs := outs }).fs =
      { input := some t,
        outputs := fsWriteAll outs (chartSpecs.map (fun s =>
          (configure_output sd s.filename,
           s.render ((getColumn t s.col).getD [])))) } := by
  rw [main_ok_eq sd cwd t outs h]

/-- C6: for every table missing a column required by some demographic
renderer, the run halts at the first renderer in the fixed sequence whose
column is absent: that renderer fails with the missing-column condition
(reported by the generic handler), only the charts strictly before it are
saved, and no chart at or after the failing renderer is saved. -/
theorem missing_column_halts_run (sd cwd : String) (t : Table)
    (outs : List (String × Chart)) (c : String)
    (hc : c ∈ demo_columns) (habs : hasCol t c = false) :
    ∃ pre s0 post, chartSpecs = pre ++ s0 :: post ∧
      (∀ s ∈ pre, hasCol t s.col = true) ∧ hasCol t s0.col = false ∧
      (main sd cwd { input := some t, outputs := outs }).report =
        ["✗ Unexpected error: '" ++ s0.col ++ "'"] ∧
      (main sd cwd { input := some t, outputs := outs }).saved =
        pre.map (fun s => configure_output sd s.filename) ∧
      ∀ s ∈ s0 :: post, configure_output sd s.filename ∉
        (main sd cwd { input := some t, outputs := outs }).saved := by
  have hsub : ∀ c2 ∈ demo_columns, ∃ s, s ∈ chartSpecs ∧ s.col = c2 := by decide
  obtain ⟨s1, hs1, hcol1⟩ := hsub c hc
  have hfalse : hasCol t s1.col = false := by rwa [hcol1]
  obtain ⟨pre, s0, post, hsplit, hpre, h0⟩ :=
    exists_first_fail (fun s => hasCol t s.col) chartSpecs ⟨s1, hs1, hfalse⟩
  have hmain := main_fail_eq sd cwd t outs pre s0 post hsplit hpre h0
  refine ⟨pre, s0, post, hsplit, hpre, h0, by rw [hmain], by rw [hmain], ?_⟩
  intro s hs hmem
  rw [hmain] at hmem
  obtain ⟨s2, hs2, heq⟩ := List.mem_map.mp hmem
  have hfeq : s2.filename = s.filename := configure_output_injective sd heq
  have hnd := filenames_nodup
  rw [hsplit, List.map_append] at hnd
  have hdisj := (List.nodup_append.mp hnd).2.2
  exact hdisj (List.mem_map.mpr ⟨s2, hs2, rfl⟩)
    (hfeq ▸ List.mem_map.mpr ⟨s, hs, rfl⟩)

/-- C6 witness: on a table with only the first two demographic columns, the
run halts at the SEXIDENT renderer. -/
theorem missing_column_halts_run_witness :
    ("SEXIDENT" ∈ demo_columns) ∧ (hasCol partTable "SEXIDENT" = false) ∧
    (∃ pre s0 post, chartSpecs = pre ++ s0 :: post ∧
      (∀ s ∈ pre, hasCol partTable s.col = true) ∧
      hasCol partTable s0.col = false ∧
      (main "S" "C" { input := some partTable, outputs := [] }).report =
        ["✗ Unexpected error: '" ++ s0.col ++ "'"] ∧
      (main "S" "C" { input := some partTable, outputs := [] }).saved =
        pre.map (fun s => configure_output "S" s.filename) ∧
      ∀ s ∈ s0 :: post, configure_output "S" s.filename ∉
        (main "S" "C" { input := some partTable, outputs := [] }).saved) :=
  ⟨by decide, by decide,
   missing_column_halts_run "S" "C" partTable [] "SEXIDENT" (by decide) (by decide)⟩

/-- C7 counterexample: the AGE3 column holds each code 4..11 at least once,
plus one out-of-range code 3; `value_counts().sort_index()` then yields nine
bars, so the bar heights are not the per-code counts in the order 4..11. -/
theorem age_counts_extra_code_counterexample :
    getColumn ageBadTable "AGE3" = some [3, 4, 5, 6, 7, 8, 9, 10, 11] ∧
    (∀ c ∈ ([4, 5, 6, 7, 8, 9, 10, 11] : List Int),
      ([3, 4, 5, 6, 7, 8, 9, 10, 11] : List Int).count c ≥ 1) ∧
    (histograph_age.render [3, 4, 5, 6, 7, 8, 9, 10, 11]).bars.map (fun b => b.2) ≠
      ([4, 5, 6, 7, 8, 9, 10, 11] : List Int).map
        (fun c => ([3, 4, 5, 6, 7, 8, 9, 10, 11] : List Int).count c) := by
  decide

/-- C7 (amended): for every table whose AGE3 values all lie in 4..11 and
where each code 4..11 has at least one matching row, the rendered bars are
the per-code row counts in exactly the order 4..11. -/
theorem age_counts_in_declared_order (t : Table) (xs : List Int)
    (h : getColumn t "AGE3" = some xs)
    (hsub : ∀ v ∈ xs, v ∈ ([4, 5, 6, 7, 8, 9, 10, 11] : List Int))
    (hcov : ∀ c ∈ ([4, 5, 6, 7, 8, 9, 10, 11] : List Int), c ∈ xs) :
    (histograph_age.render xs).bars =
      ([4, 5, 6, 7, 8, 9, 10, 11] : List Int).map (fun c => (c, xs.count c)) ∧
    (histograph_age.render xs).bars.map (fun b => b.2) =
      ([4, 5, 6, 7, 8, 9, 10, 11] : List Int).map (fun c => xs.count c) := by
  have hsort : xs.dedup.insertionSort (· ≤ ·) = [4, 5, 6, 7, 8, 9, 10, 11] :=
    insertionSort_dedup_eq xs [4, 5, 6, 7, 8, 9, 10, 11] (by decide) (by decide)
      (fun v => ⟨fun hv => hsub v hv, fun hv => hcov v hv⟩)
  have hbars : (histograph_age.render xs).bars =
      ([4, 5, 6, 7, 8, 9, 10, 11] : List Int).map (fun v => (v, xs.count v)) := by
    show value_counts_sort_index xs = _
    unfold value_counts_sort_index
    rw [hsort]
  refine ⟨hbars, ?_⟩
  rw [hbars, List.map_map]
  rfl

/-- C7 witness: the amended theorem at a table with exactly one row per
code 4..11. -/
theorem age_counts_in_declared_order_witness :
    (getColumn ageGoodTable "AGE3" = some [4, 5, 6, 7, 8, 9, 10, 11]) ∧
    ((histograph_age.render [4, 5, 6, 7, 8, 9, 10, 11]).bars =
      ([4, 5, 6, 7, 8, 9, 10, 11] : List Int).map
        (fun c => (c, ([4, 5, 6, 7, 8, 9, 10, 11] : List Int).count c)) ∧
     (histograph_age.render [4, 5, 6, 7, 8, 9, 10, 11]).bars.map (fun b => b.2) =
      ([4, 5, 6, 7, 8, 9, 10, 11] : List Int).map
        (fun c => ([4, 5, 6, 7, 8, 9, 10, 11] : List Int).count c)) :=
  ⟨by decide,
   age_counts_in_declared_order ageGoodTable [4, 5, 6, 7, 8, 9, 10, 11]
     (by decide) (by decide) (by decide)⟩

/-- C8: renderers only read the survey table: a successful renderer step
leaves the table component of the run state unchanged, the full renderer
sequence leaves it unchanged, and `main` never writes the input file back. -/
theorem renderers_leave_table_unchanged :
    (∀ (spec : ChartSpec) (s s' : RunState),
      rendererStep spec s = .ok s' → s'.table = s.table) ∧
    (∀ (specs : List ChartSpec) (s : RunState),
      (runRenderers specs s).1.table = s.table) ∧
    (∀ (sd cwd : String) (fs : FS), (main sd cwd fs).fs.input = fs.input) :=
  ⟨fun _ _ _ h => rendererStep_table_eq h, runRenderers_table_eq, main_input_eq⟩

/-- C8 witness: one renderer step on the concrete table. -/
theorem renderers_leave_table_unchanged_witness :
    rendererStep histograph_coutyp4 { table := exampleTable, writes := [] } =
      .ok { table := exampleTable,
            writes := [("histogram_coutyp4_eng.jpg",
              histograph_coutyp4.render [1, 2, 3, 1, 2, 3, 1, 2])] } ∧
    ({ table := exampleTable,
       writes := [("histogram_coutyp4_eng.jpg",
         histograph_coutyp4.render [1, 2, 3, 1, 2, 3, 1, 2])] } : RunState).table =
      exampleTable :=
  ⟨rfl,
   renderers_leave_table_unchanged.1 histograph_coutyp4
     { table := exampleTable, writes := [] } _ rfl⟩

/-- C9: running `main` twice against an unchanged input table succeeds both
times, the second run saves exactly the same output paths as the first
(overwriting rather than erroring), and the filesystem after the second run
equals the filesystem after the first. -/
theorem main_run_twice_idempotent (sd cwd : String) (t : Table)
    (h : has_all_columns t = true) :
    (main sd cwd { input := some t, outputs := [] }).report = [] ∧
    (main sd cwd (main sd cwd { input := some t, outputs := [] }).fs).report = [] ∧
    (main sd cwd (main sd cwd { input := some t, outputs := [] }).fs).saved =
      (main sd cwd { input := some t, outputs := [] }).saved ∧
    (main sd cwd (main sd cwd { input := some t, outputs := [] }).fs).fs =
      (main sd cwd { input := some t, outputs := [] }).fs := by
  have hcols := hasCol_of_has_all_columns h
  have hkeys : ((chartSpecs.map (fun s => (configure_output sd s.filename,
      s.render ((getColumn t s.col).getD [])))).map (fun p => p.1)).Nodup := by
    rw [List.map_map]
    exact saved_paths_nodup sd
  have hout1 := fsWriteAll_nil (chartSpecs.map (fun s =>
    (configure_output sd s.filename, s.render ((getColumn t s.col).getD [])))) hkeys
  have hout2 := fsWriteAll_self (chartSpecs.map (fun s =>
    (configure_output sd s.filename, s.render ((getColumn t s.col).getD [])))) hkeys
  refine ⟨main_ok_report sd cwd t [] hcols, ?_, ?_, ?_⟩
  · rw [main_ok_fs sd cwd t [] hcols, hout1]
    exact main_ok_report sd cwd t _ hcols
  · rw [main_ok_fs sd cwd t [] hcols, hout1, main_ok_saved sd cwd t _ hcols,
      main_ok_saved sd cwd t [] hcols]
  · rw [main_ok_fs sd cwd t [] hcols, hout1, main_ok_fs sd cwd t _ hcols, hout2]

/-- C9 witness: the idempotence theorem at the concrete full-coverage
table. -/
theorem main_run_twice_idempotent_witness :
    has_all_columns exampleTable = true ∧
    ((main "S" "C" { input := some exampleTable, outputs := [] }).report = [] ∧
     (main "S" "C"
        (main "S" "C" { input := some exampleTable, outputs := [] }).fs).report = [] ∧
     (main "S" "C"
        (main "S" "C" { input := some exampleTable, outputs := [] }).fs).saved =
       (main "S" "C" { input := some exampleTable, outputs := [] }).saved ∧
     (main "S" "C"
        (main "S" "C" { input := some exampleTable, outputs := [] }).fs).fs =
       (main "S" "C" { input := some exampleTable, outputs := [] }).fs) :=
  ⟨by decide, main_run_twice_idempotent "S" "C" exampleTable (by decide)⟩

/-- C10: the drug renderer's two bars count exactly the rows whose flag
value is 1 and the rows whose flag value is 2; rows with any other value are
in neither bar, so the bar heights sum to the number of rows with value in
one of 1 and 2, which is at most the total row count. -/
theorem drug_renderer_counts_only_flag_values (t : Table) (col name : String)
    (vals : List Int) (xs : List Int) (h : getColumn t col = some xs) :
    ((histograph_drug col name vals).render xs).bars =
      [(1, xs.count 1), (2, xs.count 2)] ∧
    xs.count 1 + xs.count 2 = (xs.filter (fun v => v == 1 || v == 2)).length ∧
    (xs.filter (fun v => v == 1 || v == 2)).length ≤ t.rows.length := by
  refine ⟨rfl, count_one_two_eq_filter_length xs, ?_⟩
  have hlen : xs.length = t.rows.length := by
    unfold getColumn at h
    cases hidx : t.cols.findIdx? (fun x => x == col) with
    | none => rw [hidx] at h; simp at h
    | some i =>
      rw [hidx] at h
      injection h with h2
      rw [← h2]
      simp
  calc (xs.filter (fun v => v == 1 || v == 2)).length
      ≤ xs.length := List.Sublist.length_le (List.filter_sublist xs)
    _ = t.rows.length := hlen

/-- C10 witness: a three-row table whose flag column holds 1, 2 and 3: the
two bars sum to two, strictly fewer than the three rows. -/
theorem drug_renderer_counts_only_flag_values_witness :
    (getColumn drugTable "CIGFLAG" = some [1, 2, 3]) ∧
    (((histograph_drug "CIGFLAG" "Cigarettes" [1, 2]).render [1, 2, 3]).bars =
        [(1, ([1, 2, 3] : List Int).count 1), (2, ([1, 2, 3] : List Int).count 2)] ∧
     ([1, 2, 3] : List Int).count 1 + ([1, 2, 3] : List Int).count 2 =
       (([1, 2, 3] : List Int).filter (fun v => v == 1 || v == 2)).length ∧
     (([1, 2, 3] : List Int).filter (fun v => v == 1 || v == 2)).length ≤
       drugTable.rows.length) ∧
    (([1, 2, 3] : List Int).filter (fun v => v == 1 || v == 2)).length <
      drugTable.rows.length :=
  ⟨by decide,
   drug_renderer_counts_only_flag_values drugTable "CIGFLAG" "Cigarettes" [1, 2]
     [1, 2, 3] (by decide),
   by decide⟩

end ChartsPrep
